import Mathlib

/-!
Verification of the myeyes-prescriber-map repository: a shallow embedding of
the data pipeline (fetch-prescribers.js) and of the frontend search/filter
engine (public/js/app.js), with theorems settling the specification claims.

External calls (fetch) are modelled by passing their outcomes as explicit
inputs: a call either threw (the promise rejected) or produced a response
with an ok flag and a parsed body. JS truthiness is modelled explicitly for
optional strings and numbers.
-/

set_option maxHeartbeats 1000000

namespace PrescriberMap

/-- Truthiness of an optional JS string: null, undefined and "" are falsy. -/
def truthyS : Option String → Bool
  | none => false
  | some s => s != ""

/-- JS `a || b` over optional strings. -/
def jsOrS (a b : Option String) : Option String :=
  if truthyS a then a else b

/-- JS `x || null` over an optional string. -/
def jsStrOrNull (x : Option String) : Option String :=
  if truthyS x then x else none

/-- JS `x || null` over an optional number: 0 is falsy and becomes null. -/
def jsRatOrNull : Option ℚ → Option ℚ
  | none => none
  | some q => if q = 0 then none else some q

/-- JS toUpperCase over the ASCII range, computed on the character list. -/
def jsToUpper (s : String) : String := String.mk (s.data.map Char.toUpper)

/-- JS toLowerCase over the ASCII range, computed on the character list. -/
def jsToLower (s : String) : String := String.mk (s.data.map Char.toLower)

/-- JS trim, computed on the character list: drop whitespace at both ends. -/
def jsTrim (s : String) : String :=
  String.mk (((s.data.dropWhile Char.isWhitespace).reverse.dropWhile
    Char.isWhitespace).reverse)

/-- JS `[parts].filter(Boolean).join(sep)` over optional strings. -/
def joinTruthy (sep : String) (parts : List (Option String)) : String :=
  String.intercalate sep ((parts.filterMap id).filter (fun s => s != ""))

/-- JS `s.includes(sub)`: substring containment. -/
def strIncludes (s sub : String) : Bool := decide (List.IsInfix sub.data s.data)

/-- Decidable equality of Except values, componentwise. -/
instance {ε α : Type} [DecidableEq ε] [DecidableEq α] : DecidableEq (Except ε α) :=
  fun x y =>
    match x, y with
    | .error a, .error b =>
      if h : a = b then .isTrue (by rw [h]) else .isFalse (by intro hc; cases hc; exact h rfl)
    | .error _, .ok _ => .isFalse (by intro hc; cases hc)
    | .ok _, .error _ => .isFalse (by intro hc; cases hc)
    | .ok a, .ok b =>
      if h : a = b then .isTrue (by rw [h]) else .isFalse (by intro hc; cases hc; exact h rfl)

/-- Outcome of one fetch call: the call itself threw (the promise rejected),
or it returned a response with an ok flag and a parsed body. -/
inductive FetchOutcome (β : Type) where
  | threw : FetchOutcome β
  | got : β → FetchOutcome β
deriving DecidableEq

/-- A geocoder result: coordinates plus the backend that produced them. -/
structure Geo where
  lat : ℚ
  lng : ℚ
  source : String
deriving DecidableEq

/-- One entry of the Nominatim result array. -/
structure NomResult where
  lat : ℚ
  lon : ℚ
deriving DecidableEq

/-- A Nominatim search response. -/
structure NomResp where
  ok : Bool
  results : List NomResult
deriving DecidableEq

/-- geocodeNominatim from fetch-prescribers.js: a non-ok response yields
null, an empty result array yields null, otherwise the first result with
source "nominatim". The source has no try/catch here, so a rejected fetch
propagates as an error. -/
def geocodeNominatim : FetchOutcome NomResp → Except Unit (Option Geo)
  | .threw => .error ()
  | .got r =>
    if !r.ok then .ok none
    else
      match r.results with
      | [] => .ok none
      | x :: _ => .ok (some { lat := x.lat, lng := x.lon, source := "nominatim" })

/-- One location of the Google geocoding response. -/
structure GoogLocation where
  lat : ℚ
  lng : ℚ
deriving DecidableEq

/-- A Google geocoding response: ok flag, status string, locations. -/
structure GoogResp where
  ok : Bool
  status : String
  results : List GoogLocation
deriving DecidableEq

/-- geocodeGoogle from fetch-prescribers.js: a non-ok response, a status
other than "OK" or an empty result array yields null, otherwise the first
location with source "google". No try/catch here either. -/
def geocodeGoogle : FetchOutcome GoogResp → Except Unit (Option Geo)
  | .threw => .error ()
  | .got r =>
    if !r.ok then .ok none
    else if r.status != "OK" || r.results.isEmpty then .ok none
    else
      match r.results with
      | [] => .ok none
      | x :: _ => .ok (some { lat := x.lat, lng := x.lng, source := "google" })

/-- geocode from fetch-prescribers.js: the paid backend only when the
configuration selects it and a key is present, otherwise the free backend. -/
def geocode (geocoderCfg : String) (googleKey : Option String)
    (nomOutcome : FetchOutcome NomResp) (googOutcome : FetchOutcome GoogResp) :
    Except Unit (Option Geo) :=
  if geocoderCfg == "google" && truthyS googleKey then geocodeGoogle googOutcome
  else geocodeNominatim nomOutcome

/-- A raw ActiveCampaign contact, with the fields the pipeline reads. -/
structure Contact where
  id : String
  firstName : Option String
  lastName : Option String
  email : Option String
  phone : Option String
  orgname : Option String
deriving DecidableEq

/-- The custom-field mapping resolved for one contact (FIELD_MAP names).
fetchFieldValues only stores truthy values, but the model allows any. -/
structure Fields where
  address1 : Option String
  address2 : Option String
  city : Option String
  state : Option String
  zip : Option String
  specialty : Option String
  doctorFirstName : Option String
  doctorLastName : Option String
  practiceName : Option String
  doctorEmail : Option String
  npi : Option String
  practiceType : Option String
  prescriberType : Option String
deriving DecidableEq

/-- The enrichment adapter result. -/
structure Enrichment where
  healthSystem : Option String
  googleAddress : Option String
  verified : Bool
  placeRating : Option ℚ
deriving DecidableEq

/-- The no-match enrichment result. -/
def noEnrichment : Enrichment :=
  { healthSystem := none, googleAddress := none, verified := false, placeRating := none }

/-- One place of the Google Places response. -/
structure Place where
  name : Option String
  formattedAddress : Option String
  rating : Option ℚ
deriving DecidableEq

/-- A Google Places text search response. -/
structure PlacesResp where
  ok : Bool
  results : List Place
deriving DecidableEq

/-- enrichWithGoogle from fetch-prescribers.js: a missing key, a caught
transport error, a non-ok response or an empty result array all yield the
unverified null result; otherwise the first place, verified. -/
def enrichWithGoogle (googleKey : Option String) (outcome : FetchOutcome PlacesResp) :
    Enrichment :=
  if !truthyS googleKey then noEnrichment
  else
    match outcome with
    | .threw => noEnrichment
    | .got r =>
      if !r.ok then noEnrichment
      else
        match r.results with
        | [] => noEnrichment
        | place :: _ =>
          { healthSystem := jsStrOrNull place.name
            googleAddress := jsStrOrNull place.formattedAddress
            verified := true
            placeRating := jsRatOrNull place.rating }

/-- The structured address sub-record of a prescriber. -/
structure Address where
  street : String
  city : Option String
  state : Option String
  zip : Option String
  full : Option String
deriving DecidableEq

/-- The prescriber record, the only persisted entity. -/
structure Prescriber where
  id : String
  name : String
  email : Option String
  phone : Option String
  organization : Option String
  specialty : Option String
  practiceType : Option String
  npi : Option String
  address : Address
  lat : Option ℚ
  lng : Option ℚ
  geoSource : Option String
  healthSystem : Option String
  verified : Bool
  googleAddress : Option String
deriving DecidableEq

/-- buildAddress from fetch-prescribers.js: join the truthy parts with ", ". -/
def buildAddress (fields : Fields) : String :=
  joinTruthy ", " [fields.address1, fields.address2, fields.city, fields.state, fields.zip]

/-- buildPrescriber from fetch-prescribers.js. The outcomes of the two
possible geocode calls (full address, then zip fallback) are passed in; the
fallback outcome is consulted only when the first call returned null and a
zip is present. The enrichment result is the value enrichWithGoogle would
return for this record. -/
def buildPrescriber (contact : Contact) (fields : Fields)
    (geoFull geoZip : Except Unit (Option Geo))
    (enrichEnabled : Bool) (enrichment : Enrichment) : Except Unit Prescriber :=
  let joinedName := joinTruthy " "
    [jsOrS fields.doctorFirstName contact.firstName,
     jsOrS fields.doctorLastName contact.lastName]
  let name := if joinedName == "" then "(unknown)" else joinedName
  let fullAddress := buildAddress fields
  let geoStep : Except Unit (Option Geo) :=
    if fullAddress != "" then
      match geoFull with
      | .error e => .error e
      | .ok (some g0) => .ok (some g0)
      | .ok none => if truthyS fields.zip then geoZip else .ok none
    else .ok none
  match geoStep with
  | .error e => .error e
  | .ok geo =>
  let base : Prescriber :=
    { id := contact.id
      name := name
      email := jsStrOrNull (jsOrS fields.doctorEmail contact.email)
      phone := jsStrOrNull contact.phone
      organization := jsStrOrNull (jsOrS contact.orgname fields.practiceName)
      specialty := jsStrOrNull (jsOrS fields.specialty fields.prescriberType)
      practiceType := jsStrOrNull fields.practiceType
      npi := jsStrOrNull fields.npi
      address :=
        { street := joinTruthy ", " [fields.address1, fields.address2]
          city := jsStrOrNull fields.city
          state := jsStrOrNull fields.state
          zip := jsStrOrNull fields.zip
          full := if fullAddress == "" then none else some fullAddress }
      lat := jsRatOrNull (geo.map Geo.lat)
      lng := jsRatOrNull (geo.map Geo.lng)
      geoSource := jsStrOrNull (geo.map Geo.source)
      healthSystem := none
      verified := false
      googleAddress := none }
  if enrichEnabled then
    .ok { base with
      healthSystem := enrichment.healthSystem
      verified := enrichment.verified
      googleAddress :=
        if truthyS enrichment.googleAddress then enrichment.googleAddress else none }
  else
    .ok base

/-- One page of the paginated contact source: the contact array and the
reported meta.total after parseInt. -/
structure PageResp where
  contacts : List Contact
  total : Nat
deriving DecidableEq

/-- The pagination loop of fetchAllPrescribers with explicit fuel: none means
the fuel ran out before the loop hit its stop condition. pages maps a request
offset to the page the contact source returns; page size is 100. -/
def fetchLoop (pages : Nat → PageResp) : Nat → Nat → List Contact → Option (List Contact)
  | 0, _, _ => none
  | fuel + 1, offset, acc =>
    let data := pages offset
    let all := acc ++ data.contacts
    if data.total ≤ all.length || data.contacts.length == 0 then some all
    else fetchLoop pages fuel (offset + 100) all

/-- fetchAllPrescribers from fetch-prescribers.js, starting at offset 0 with
an empty accumulator. -/
def fetchAllPrescribers (pages : Nat → PageResp) (fuel : Nat) : Option (List Contact) :=
  fetchLoop pages fuel 0 []

/-- The precondition of the pagination claim: following the pages from a
given offset and accumulated count, some page eventually is empty or brings
the accumulated count to the reported total. -/
inductive LoopStops (pages : Nat → PageResp) : Nat → Nat → Prop where
  | stop {offset accLen} :
      (pages offset).total ≤ accLen + (pages offset).contacts.length ∨
        (pages offset).contacts.length = 0 →
      LoopStops pages offset accLen
  | step {offset accLen} :
      LoopStops pages (offset + 100) (accLen + (pages offset).contacts.length) →
      LoopStops pages offset accLen

/-- The prepared environment for one iteration of the main loop: the contact,
the outcome of its field-value fetch, the outcomes of its two possible
geocode calls, and its enrichment result. -/
structure ContactEnv where
  contact : Contact
  fieldsOutcome : Except Unit Fields
  geoFull : Except Unit (Option Geo)
  geoZip : Except Unit (Option Geo)
  enrichment : Enrichment
deriving DecidableEq

/-- One iteration of the main loop for one contact: a throwing field-value
fetch propagates; otherwise the record is built. -/
def processContact (enrichEnabled : Bool) (e : ContactEnv) : Except Unit Prescriber :=
  match e.fieldsOutcome with
  | .error er => .error er
  | .ok fields =>
    buildPrescriber e.contact fields e.geoFull e.geoZip enrichEnabled e.enrichment

/-- JS truthiness of the condition `p.lat && p.lng`. -/
def latLngTruthy (p : Prescriber) : Bool :=
  (jsRatOrNull p.lat).isSome && (jsRatOrNull p.lng).isSome

/-- JS truthiness of `p.address.full`. -/
def fullTruthy (p : Prescriber) : Bool := truthyS p.address.full

/-- The main loop of fetch-prescribers.js over the prepared per-contact
environments, carrying the record list and the geocoded / no-address
counters; an error in any iteration aborts the whole run. -/
def runLoop (enrichEnabled : Bool) :
    List ContactEnv → List Prescriber → Nat → Nat →
    Except Unit (List Prescriber × Nat × Nat)
  | [], ps, g, s => .ok (ps, g, s)
  | e :: rest, ps, g, s =>
    match processContact enrichEnabled e with
    | .error er => .error er
    | .ok p =>
      if latLngTruthy p then runLoop enrichEnabled rest (ps ++ [p]) (g + 1) s
      else if !fullTruthy p then runLoop enrichEnabled rest (ps ++ [p]) g (s + 1)
      else runLoop enrichEnabled rest (ps ++ [p]) g s

/-- The whole processing stage of main, from the empty state. -/
def runPipeline (enrichEnabled : Bool) (envs : List ContactEnv) :
    Except Unit (List Prescriber × Nat × Nat) :=
  runLoop enrichEnabled envs [] 0 0

/-- The record of the counting branch `if (p.lat && p.lng) geocoded++`. -/
def isGeocoded (p : Prescriber) : Bool := latLngTruthy p

/-- The record of the counting branch `else if (!p.address.full) skipped++`. -/
def isNoAddress (p : Prescriber) : Bool := !latLngTruthy p && !fullTruthy p

/-- The output document shape (the generated timestamp is outside the model). -/
structure OutputDoc where
  total : Nat
  geocoded : Nat
  noAddress : Nat
  prescribers : List Prescriber
deriving DecidableEq

/-- The output document of main: total is the record count and prescribers is
the name-sorted list (localeCompare modelled as the string order). -/
def makeOutput (ps : List Prescriber) (geocoded skipped : Nat) : OutputDoc :=
  { total := ps.length
    geocoded := geocoded
    noAddress := skipped
    prescribers := ps.mergeSort (fun a b => a.name ≤ b.name) }

/-- The STATE_CODES table of app.js: full state name to 2-letter code. -/
def STATE_CODES : List (String × String) :=
  [("ALABAMA", "AL"), ("ALASKA", "AK"), ("ARIZONA", "AZ"), ("ARKANSAS", "AR"),
   ("CALIFORNIA", "CA"), ("COLORADO", "CO"), ("CONNECTICUT", "CT"), ("DELAWARE", "DE"),
   ("FLORIDA", "FL"), ("GEORGIA", "GA"), ("HAWAII", "HI"), ("IDAHO", "ID"),
   ("ILLINOIS", "IL"), ("INDIANA", "IN"), ("IOWA", "IA"), ("KANSAS", "KS"),
   ("KENTUCKY", "KY"), ("LOUISIANA", "LA"), ("MAINE", "ME"), ("MARYLAND", "MD"),
   ("MASSACHUSETTS", "MA"), ("MICHIGAN", "MI"), ("MINNESOTA", "MN"), ("MISSISSIPPI", "MS"),
   ("MISSOURI", "MO"), ("MONTANA", "MT"), ("NEBRASKA", "NE"), ("NEVADA", "NV"),
   ("NEW HAMPSHIRE", "NH"), ("NEW JERSEY", "NJ"), ("NEW MEXICO", "NM"), ("NEW YORK", "NY"),
   ("NORTH CAROLINA", "NC"), ("NORTH DAKOTA", "ND"), ("OHIO", "OH"), ("OKLAHOMA", "OK"),
   ("OREGON", "OR"), ("PENNSYLVANIA", "PA"), ("RHODE ISLAND", "RI"),
   ("SOUTH CAROLINA", "SC"), ("SOUTH DAKOTA", "SD"), ("TENNESSEE", "TN"), ("TEXAS", "TX"),
   ("UTAH", "UT"), ("VERMONT", "VT"), ("VIRGINIA", "VA"), ("WASHINGTON", "WA"),
   ("WEST VIRGINIA", "WV"), ("WISCONSIN", "WI"), ("WYOMING", "WY"),
   ("DISTRICT OF COLUMBIA", "DC")]

/-- The VALID_CODES set of app.js: the values of STATE_CODES. -/
def VALID_CODES : List String := STATE_CODES.map Prod.snd

/-- normalizeState from app.js: falsy input yields null; a trimmed
upper-cased value that already is a valid code stays; a full name maps to
its code; anything else yields null. -/
def normalizeState : Option String → Option String
  | none => none
  | some raw =>
    if raw == "" then none
    else
      let upper := jsToUpper (jsTrim raw)
      if VALID_CODES.contains upper then some upper
      else
        match STATE_CODES.lookup upper with
        | some code => some code
        | none => none

/-- getFilteredPrescribers from app.js: the empty selection keeps the whole
list, otherwise exact match of the normalized state against the selection. -/
def getFilteredPrescribers (all : List Prescriber) (stateSel : String) : List Prescriber :=
  if stateSel == "" then all
  else all.filter (fun p => normalizeState p.address.state == some stateSel)

/-- The match computation of the doctor search input handler in app.js: a
query below the two-character threshold shows no matches; otherwise the
case-insensitive substring filter over truthy names, capped at 20 entries. -/
def doctorMatches (all : List Prescriber) (rawInput : String) : List Prescriber :=
  let query := jsToLower (jsTrim rawInput)
  if query.length < 2 then []
  else (all.filter (fun p => p.name != "" && strIncludes (jsToLower p.name) query)).take 20

/-- The drawn radius overlay: center and radius of the Leaflet circle. -/
structure Circle where
  centerLat : ℚ
  centerLng : ℚ
  radius : ℚ
deriving DecidableEq

/-- The frontend filter state doSearch may mutate: the stored search
coordinates, the drawn radius overlay, and the displayed record set. -/
structure FrontState where
  searchLat : Option ℚ
  searchLng : Option ℚ
  searchCircle : Option Circle
  displayed : List Prescriber
deriving DecidableEq

/-- The observable outcome of one doSearch invocation: a blocking alert with
the message and the (unchanged) state, or a completed search with the new
state. -/
inductive SearchOutcome where
  | alerted : String → FrontState → SearchOutcome
  | completed : FrontState → SearchOutcome
deriving DecidableEq

/-- The exact regex of doSearch: five ASCII digits and nothing else. -/
def isFiveDigitZip (s : String) : Bool := s.length == 5 && s.data.all Char.isDigit

/-- doSearch from app.js: the zip format check, then the zip geocode; either
failure alerts and leaves the state exactly as it was, success overwrites
the search coordinates, redraws the circle, and displays the records the
nearby computation produces for the resolved point. -/
def doSearch (st : FrontState) (zipRaw : String) (radiusMiles : ℚ)
    (geoResult : Option (ℚ × ℚ)) (nearby : ℚ × ℚ → List Prescriber) : SearchOutcome :=
  let zip := jsTrim zipRaw
  if !isFiveDigitZip zip then .alerted "Please enter a valid 5-digit zip code." st
  else
    match geoResult with
    | none => .alerted ("Could not find location for zip code: " ++ zip) st
    | some g =>
      .completed
        { searchLat := some g.1
          searchLng := some g.2
          searchCircle := some { centerLat := g.1, centerLng := g.2, radius := radiusMiles }
          displayed := nearby g }

/-- The nearby computation of doSearch over a base list: keep the records
with truthy coordinates, attach each its distance, keep distances at most
the radius, sort ascending by distance. The distance function stands for the
haversine call on the resolved search point and the record coordinates. -/
def radiusSearch {α : Type} [LinearOrder α] (dist : Prescriber → α)
    (base : List Prescriber) (radius : α) : List (Prescriber × α) :=
  (((base.filter latLngTruthy).map (fun p => (p, dist p))).filter
      (fun pd => pd.2 ≤ radius)).mergeSort (fun a b => a.2 ≤ b.2)

/-- toRad from app.js over the reals. -/
noncomputable def toRad (deg : ℝ) : ℝ := deg * Real.pi / 180

/-- Math.atan2 as a real function, by the standard quadrant cases. -/
noncomputable def atan2 (y x : ℝ) : ℝ :=
  if 0 < x then Real.arctan (y / x)
  else if x < 0 ∧ 0 ≤ y then Real.arctan (y / x) + Real.pi
  else if x < 0 ∧ y < 0 then Real.arctan (y / x) - Real.pi
  else if x = 0 ∧ 0 < y then Real.pi / 2
  else if x = 0 ∧ y < 0 then -(Real.pi / 2)
  else 0

/-- haversine from app.js over the reals, Earth radius 3959 miles. -/
noncomputable def haversine (lat1 lon1 lat2 lon2 : ℝ) : ℝ :=
  let dLat := toRad (lat2 - lat1)
  let dLon := toRad (lon2 - lon1)
  let a := Real.sin (dLat / 2) ^ 2 +
    Real.cos (toRad lat1) * Real.cos (toRad lat2) * Real.sin (dLon / 2) ^ 2
  3959 * 2 * atan2 (Real.sqrt a) (Real.sqrt (1 - a))

/-- The latitude a record contributes to the haversine call (only read when
the coordinates are truthy). -/
def coordLat (p : Prescriber) : ℚ := p.lat.getD 0

/-- The longitude a record contributes to the haversine call. -/
def coordLng (p : Prescriber) : ℚ := p.lng.getD 0

/-- The nearby list of doSearch with the real haversine distance from the
searched point, over the state-filtered subset when a state is selected. -/
noncomputable def doSearchNearby (all : List Prescriber) (stateSel : String)
    (clat clng radius : ℝ) : List (Prescriber × ℝ) :=
  radiusSearch (fun p => haversine clat clng ((coordLat p : ℚ) : ℝ) ((coordLng p : ℚ) : ℝ))
    (getFilteredPrescribers all stateSel) radius

/-! Concrete example values used by witnesses and counterexamples. -/

/-- A concrete contact. -/
def contactEx : Contact :=
  { id := "c1", firstName := some "Alice", lastName := some "Smith",
    email := some "alice@example.com", phone := none, orgname := none }

/-- A concrete field mapping with a full address. -/
def fieldsEx : Fields :=
  { address1 := some "1 Main St", address2 := none, city := some "Los Angeles",
    state := some "California", zip := some "90001", specialty := none,
    doctorFirstName := none, doctorLastName := none, practiceName := none,
    doctorEmail := none, npi := none, practiceType := none, prescriberType := none }

/-- The record buildPrescriber emits for contactEx/fieldsEx when both
geocode calls return null and enrichment is off. -/
def prescriberDegraded : Prescriber :=
  { id := "c1", name := "Alice Smith", email := some "alice@example.com",
    phone := none, organization := none, specialty := none, practiceType := none,
    npi := none,
    address := { street := "1 Main St", city := some "Los Angeles",
                 state := some "California", zip := some "90001",
                 full := some "1 Main St, Los Angeles, California, 90001" },
    lat := none, lng := none, geoSource := none,
    healthSystem := none, verified := false, googleAddress := none }

/-- A loop environment whose field-value fetch throws. -/
def envFieldFetchFails : ContactEnv :=
  { contact := contactEx, fieldsOutcome := .error (), geoFull := .ok none,
    geoZip := .ok none, enrichment := noEnrichment }

/-- A loop environment whose field-value fetch succeeds and whose geocode
calls complete without a result. -/
def envOk : ContactEnv :=
  { contact := contactEx, fieldsOutcome := .ok fieldsEx, geoFull := .ok none,
    geoZip := .ok none, enrichment := noEnrichment }

/-- A contact source whose first page is already empty. -/
def pagesEx : Nat → PageResp := fun _ => { contacts := [], total := 0 }

/-- A concrete frontend state. -/
def frontStateEx : FrontState :=
  { searchLat := some 34, searchLng := some (-118),
    searchCircle := some { centerLat := 34, centerLng := -118, radius := 25 },
    displayed := [prescriberDegraded] }

/-! ## Claim C1: the state filter -/

/-- C1: the client state filter is an exact match on the normalized
2-letter state code: "California" and "CA" both normalize to "CA";
"Ontario" normalizes to null, is excluded from every state-filtered view,
and every record (normalizable or not) remains in the unfiltered view. -/
theorem c1_state_filter_normalized (all : List Prescriber) (p : Prescriber)
    (sel : String) (hsel : sel ≠ "") :
    normalizeState (some "California") = some "CA" ∧
    normalizeState (some "CA") = some "CA" ∧
    normalizeState (some "Ontario") = none ∧
    (p ∈ getFilteredPrescribers all sel ↔
      p ∈ all ∧ normalizeState p.address.state = some sel) ∧
    (normalizeState p.address.state = none → p ∉ getFilteredPrescribers all sel) ∧
    getFilteredPrescribers all "" = all := by
  have hb : (sel == "") = false := by simpa using hsel
  have hmem : p ∈ getFilteredPrescribers all sel ↔
      p ∈ all ∧ normalizeState p.address.state = some sel := by
    simp [getFilteredPrescribers, hb, List.mem_filter]
  refine ⟨by decide, by decide, by decide, hmem, ?_, by simp [getFilteredPrescribers]⟩
  intro hnone hin
  rw [hmem] at hin
  rw [hnone] at hin
  exact Option.noConfusion hin.2

/-- Witness for C1 at a concrete selection. -/
theorem c1_state_filter_normalized_witness :
    normalizeState (some "California") = some "CA" :=
  (c1_state_filter_normalized [] prescriberDegraded "CA" (by decide)).1

/-! ## Claim C2: geocoder failure policy -/

/-- C2 counterexample: both geocoders propagate a rejected fetch as an
exception (no try/catch in the source), so "never throws" fails on the
concrete input of a throwing fetch. -/
theorem c2_counterexample :
    geocodeNominatim FetchOutcome.threw = Except.error () ∧
    geocodeGoogle FetchOutcome.threw = Except.error () :=
  ⟨rfl, rfl⟩

/-- C2 (amended): on every completed response both geocoders return without
throwing, and any non-success status or empty result set yields null; only
an exception from the fetch call itself propagates to the caller. -/
theorem c2_geocode_null_on_failure (nr : NomResp) (gr : GoogResp) :
    (∃ v, geocodeNominatim (.got nr) = .ok v) ∧
    (∃ v, geocodeGoogle (.got gr) = .ok v) ∧
    (nr.ok = false → geocodeNominatim (.got nr) = .ok none) ∧
    (nr.results = [] → geocodeNominatim (.got nr) = .ok none) ∧
    (gr.ok = false → geocodeGoogle (.got gr) = .ok none) ∧
    (gr.status ≠ "OK" → geocodeGoogle (.got gr) = .ok none) ∧
    (gr.results = [] → geocodeGoogle (.got gr) = .ok none) := by
  obtain ⟨nok, nres⟩ := nr
  obtain ⟨gok, gst, gres⟩ := gr
  refine ⟨?_, ?_, ?_, ?_, ?_, ?_, ?_⟩
  · cases nok <;> cases nres <;> exact ⟨_, rfl⟩
  · cases gok
    · exact ⟨_, rfl⟩
    · by_cases hst : gst = "OK"
      · subst hst; cases gres <;> exact ⟨_, rfl⟩
      · refine ⟨none, ?_⟩
        have : (gst != "OK") = true := by simpa using hst
        simp [geocodeGoogle, this]
  · intro h; subst h; cases nres <;> rfl
  · intro h; subst h; cases nok <;> rfl
  · intro h; subst h; rfl
  · intro h
    have hb : (gst != "OK") = true := by simpa using h
    cases gok <;> simp [geocodeGoogle, hb]
  · intro h; subst h; cases gok
    · rfl
    · by_cases hst : gst = "OK"
      · subst hst; rfl
      · have hb : (gst != "OK") = true := by simpa using hst
        simp [geocodeGoogle, hb]

/-! ## Claim C3: per-contact error scoping -/

/-- C3 counterexample: a field-fetch failure on the first contact aborts the
whole run (the second contact is never processed) instead of degrading that
record and continuing. -/
theorem c3_counterexample :
    runPipeline false [envFieldFetchFails, envOk] = Except.error () := rfl

/-- Building a record when both geocode calls completed without a result and
enrichment found nothing: the build succeeds with null coordinates, null
source, null health system and verified false. -/
theorem buildPrescriber_geoNone (c : Contact) (f : Fields) (en : Bool) :
    ∃ p, buildPrescriber c f (.ok none) (.ok none) en noEnrichment = .ok p ∧
      p.lat = none ∧ p.lng = none ∧ p.geoSource = none ∧
      p.healthSystem = none ∧ p.verified = false := by
  unfold buildPrescriber
  cases hfa : (buildAddress f != "") <;>
    cases en <;>
      simp [hfa, noEnrichment, truthyS, jsRatOrNull, jsStrOrNull]

/-- C3 (amended): when the field-value fetch succeeds and the geocode calls
complete without a result, the record is emitted degraded (null coordinates
and source, null health system, unverified) and the loop moves on to the
remaining contacts; only a thrown field fetch or a thrown geocode aborts the
run. -/
theorem c3_degraded_record_continues (en : Bool) (e : ContactEnv) (f : Fields)
    (rest : List ContactEnv) (ps : List Prescriber) (g s : Nat)
    (h1 : e.fieldsOutcome = .ok f) (h2 : e.geoFull = .ok none)
    (h3 : e.geoZip = .ok none) (h4 : e.enrichment = noEnrichment) :
    ∃ p, processContact en e = .ok p ∧
      p.lat = none ∧ p.lng = none ∧ p.geoSource = none ∧
      p.healthSystem = none ∧ p.verified = false ∧
      runLoop en (e :: rest) ps g s =
        runLoop en rest (ps ++ [p]) g (if fullTruthy p then s else s + 1) := by
  obtain ⟨p, hb, hlat, hlng, hsrc, hhs, hv⟩ := buildPrescriber_geoNone e.contact f en
  have hpc : processContact en e = .ok p := by
    unfold processContact
    rw [h1, h2, h3, h4]
    exact hb
  refine ⟨p, hpc, hlat, hlng, hsrc, hhs, hv, ?_⟩
  have hlt : latLngTruthy p = false := by simp [latLngTruthy, hlat, jsRatOrNull]
  conv_lhs => rw [runLoop]
  rw [hpc]
  cases hf : fullTruthy p <;> simp [hlt, hf]

/-- Witness for C3 (amended) at a concrete environment. -/
theorem c3_degraded_record_continues_witness :
    ∃ p, processContact false envOk = Except.ok p ∧ p.lat = none ∧ p.verified = false := by
  obtain ⟨p, hp, hlat, _, _, _, hv, _⟩ :=
    c3_degraded_record_continues false envOk fieldsEx [] [] 0 0 rfl rfl rfl rfl
  exact ⟨p, hp, hlat, hv⟩

/-! ## Claim C4: the doctor name search -/

/-- C4: for every query whose normalized form reaches the two-character
threshold, the doctor search shows only records whose lower-cased name
contains the lower-cased trimmed query, shows at most 20 matches, and shows
exactly the matching records whenever the cap is not exceeded. -/
theorem c4_doctor_search (all : List Prescriber) (raw : String)
    (h : 2 ≤ (jsToLower (jsTrim raw)).length) :
    (doctorMatches all raw).length ≤ 20 ∧
    (∀ p ∈ doctorMatches all raw,
      p.name ≠ "" ∧ strIncludes (jsToLower p.name) (jsToLower (jsTrim raw)) = true) ∧
    ((all.filter (fun p =>
        p.name != "" && strIncludes (jsToLower p.name) (jsToLower (jsTrim raw)))).length ≤ 20 →
      ∀ p, p ∈ doctorMatches all raw ↔
        p ∈ all ∧ p.name ≠ "" ∧
          strIncludes (jsToLower p.name) (jsToLower (jsTrim raw)) = true) := by
  have hq : ¬ (jsToLower (jsTrim raw)).length < 2 := by omega
  have hd : doctorMatches all raw =
      (all.filter (fun p =>
        p.name != "" && strIncludes (jsToLower p.name) (jsToLower (jsTrim raw)))).take 20 := by
    simp [doctorMatches, hq]
  refine ⟨?_, ?_, ?_⟩
  · rw [hd, List.length_take]
    omega
  · intro p hp
    rw [hd] at hp
    have hp2 := List.mem_of_mem_take hp
    rw [List.mem_filter] at hp2
    have hcond := hp2.2
    rw [Bool.and_eq_true] at hcond
    refine ⟨?_, hcond.2⟩
    simpa using hcond.1
  · intro hcap p
    rw [hd, List.take_of_length_le hcap, List.mem_filter]
    constructor
    · rintro ⟨hin, hcond⟩
      rw [Bool.and_eq_true] at hcond
      exact ⟨hin, by simpa using hcond.1, hcond.2⟩
    · rintro ⟨hin, hname, hincl⟩
      refine ⟨hin, ?_⟩
      rw [Bool.and_eq_true]
      exact ⟨by simpa using hname, hincl⟩

/-- Witness for C4 at a concrete query. -/
theorem c4_doctor_search_witness : (doctorMatches [] "ab").length ≤ 20 :=
  (c4_doctor_search [] "ab" (by decide)).1

/-! ## Claim C5: coordinate and source invariants of the builder -/

/-- C5 counterexample: a successful geocode whose latitude is exactly 0 is
individually coerced to null by JS falsiness, so the emitted record has a
null lat next to a set lng. -/
theorem c5_counterexample :
    (buildPrescriber contactEx fieldsEx
        (.ok (some { lat := 0, lng := 50, source := "nominatim" })) (.ok none)
        false noEnrichment).toOption.map (fun p => (p.lat, p.lng)) =
      some (none, some 50) := by decide

/-- Any success of the free geocoder carries source "nominatim". -/
theorem geocodeNominatim_source (o : FetchOutcome NomResp) (g : Geo)
    (h : geocodeNominatim o = .ok (some g)) : g.source = "nominatim" := by
  cases o with
  | threw => exact absurd h (by simp [geocodeNominatim])
  | got r =>
    simp only [geocodeNominatim] at h
    by_cases hok : (!r.ok) = true
    · rw [if_pos hok] at h
      simp at h
    · rw [if_neg hok] at h
      cases hres : r.results with
      | nil => rw [hres] at h; simp at h
      | cons x xs =>
        rw [hres] at h
        simp at h
        rw [← h]

/-- Any success of the paid geocoder carries source "google". -/
theorem geocodeGoogle_source (o : FetchOutcome GoogResp) (g : Geo)
    (h : geocodeGoogle o = .ok (some g)) : g.source = "google" := by
  cases o with
  | threw => exact absurd h (by simp [geocodeGoogle])
  | got r =>
    simp only [geocodeGoogle] at h
    by_cases hok : (!r.ok) = true
    · rw [if_pos hok] at h
      simp at h
    · rw [if_neg hok] at h
      by_cases hst : (r.status != "OK" || r.results.isEmpty) = true
      · rw [if_pos hst] at h
        simp at h
      · rw [if_neg hst] at h
        cases hres : r.results with
        | nil => rw [hres] at h; simp at h
        | cons x xs =>
          rw [hres] at h
          simp at h
          rw [← h]

/-- Any geocode success carries one of the two known backend names. -/
theorem geocode_source (cfg : String) (key : Option String)
    (no : FetchOutcome NomResp) (go : FetchOutcome GoogResp) (g : Geo)
    (h : geocode cfg key no go = .ok (some g)) :
    g.source = "nominatim" ∨ g.source = "google" := by
  unfold geocode at h
  by_cases hc : (cfg == "google" && truthyS key) = true
  · rw [if_pos hc] at h
    exact Or.inr (geocodeGoogle_source go g h)
  · rw [if_neg hc] at h
    exact Or.inl (geocodeNominatim_source no g h)

/-- C5 (amended): when both geocode attempts complete without a result, the
emitted record has lat, lng and geoSource all null; when the full address
geocodes successfully with both coordinates nonzero, lat and lng are both
set to them and geoSource is one of the two known backends. A zero
coordinate, however, is individually coerced to null by JS falsiness. -/
theorem c5_coordinates_source (c : Contact) (f : Fields)
    (cfg : String) (key : Option String)
    (nf : FetchOutcome NomResp) (gf : FetchOutcome GoogResp)
    (nz : FetchOutcome NomResp) (gz : FetchOutcome GoogResp)
    (en : Bool) (enr : Enrichment) (p : Prescriber)
    (hp : buildPrescriber c f (geocode cfg key nf gf) (geocode cfg key nz gz)
        en enr = .ok p) :
    (geocode cfg key nf gf = .ok none → geocode cfg key nz gz = .ok none →
      p.lat = none ∧ p.lng = none ∧ p.geoSource = none) ∧
    (∀ g : Geo, buildAddress f ≠ "" → geocode cfg key nf gf = .ok (some g) →
      g.lat ≠ 0 → g.lng ≠ 0 →
      p.lat = some g.lat ∧ p.lng = some g.lng ∧
      (p.geoSource = some "nominatim" ∨ p.geoSource = some "google")) := by
  constructor
  · intro hF hZ
    rw [hF, hZ] at hp
    unfold buildPrescriber at hp
    cases hfa : (buildAddress f != "") <;>
      cases en <;>
        · simp [hfa] at hp
          subst hp
          simp [jsRatOrNull, jsStrOrNull, truthyS]
  · intro g hfull hF hlat0 hlng0
    have hfa : (buildAddress f != "") = true := by simpa using hfull
    have hsrc := geocode_source cfg key nf gf g hF
    rw [hF] at hp
    unfold buildPrescriber at hp
    cases en <;>
      · simp [hfa] at hp
        subst hp
        refine ⟨by simp [jsRatOrNull, hlat0], by simp [jsRatOrNull, hlng0], ?_⟩
        rcases hsrc with hs | hs <;> rw [hs] <;> simp [jsStrOrNull, truthyS]

/-- The record buildPrescriber emits for contactEx/fieldsEx with a
successful nominatim geocode at (34, -118). -/
def prescriberGeocoded : Prescriber :=
  { id := "c1", name := "Alice Smith", email := some "alice@example.com",
    phone := none, organization := none, specialty := none, practiceType := none,
    npi := none,
    address := { street := "1 Main St", city := some "Los Angeles",
                 state := some "California", zip := some "90001",
                 full := some "1 Main St, Los Angeles, California, 90001" },
    lat := some 34, lng := some (-118), geoSource := some "nominatim",
    healthSystem := none, verified := false, googleAddress := none }

/-- Witness for C5 (amended) at a concrete successful geocode. -/
theorem c5_coordinates_source_witness :
    prescriberGeocoded.lat = some 34 ∧ prescriberGeocoded.lng = some (-118) ∧
    (prescriberGeocoded.geoSource = some "nominatim" ∨
      prescriberGeocoded.geoSource = some "google") := by
  have h := c5_coordinates_source contactEx fieldsEx "nominatim" none
    (FetchOutcome.got { ok := true, results := [{ lat := 34, lon := -118 }] })
    FetchOutcome.threw FetchOutcome.threw FetchOutcome.threw false noEnrichment
    prescriberGeocoded (by decide)
  exact h.2 { lat := 34, lng := -118, source := "nominatim" }
    (by decide) (by decide) (by decide) (by decide)

/-! ## Claim C6: the radius search -/

/-- Membership in the radius search output: a pair is in the result exactly
when its record is in the base with truthy coordinates, its distance is the
computed one, and that distance is within the radius. -/
theorem radiusSearch_mem {α : Type} [LinearOrder α] (dist : Prescriber → α)
    (base : List Prescriber) (radius : α) (p : Prescriber) (d : α) :
    (p, d) ∈ radiusSearch dist base radius ↔
      (p ∈ base ∧ latLngTruthy p = true ∧ d = dist p ∧ d ≤ radius) := by
  simp only [radiusSearch, List.mem_mergeSort, List.mem_filter, List.mem_map,
    decide_eq_true_eq]
  constructor
  · rintro ⟨⟨q, ⟨hqin, hqtr⟩, heq⟩, hle⟩
    injection heq with h1 h2
    subst h1
    subst h2
    exact ⟨hqin, hqtr, rfl, hle⟩
  · rintro ⟨hin, htr, rfl, hle⟩
    exact ⟨⟨p, ⟨hin, htr⟩, rfl⟩, hle⟩

/-- The radius search output is sorted ascending by the attached distance. -/
theorem radiusSearch_sorted {α : Type} [LinearOrder α] (dist : Prescriber → α)
    (base : List Prescriber) (radius : α) :
    List.Pairwise (fun a b : Prescriber × α => a.2 ≤ b.2)
      (radiusSearch dist base radius) := by
  unfold radiusSearch
  have htrans : ∀ a b c : Prescriber × α,
      (decide (a.2 ≤ b.2)) = true → (decide (b.2 ≤ c.2)) = true →
        (decide (a.2 ≤ c.2)) = true := by
    intro a b c hab hbc
    rw [decide_eq_true_eq] at hab hbc ⊢
    exact le_trans hab hbc
  have htotal : ∀ a b : Prescriber × α,
      ((decide (a.2 ≤ b.2)) || (decide (b.2 ≤ a.2))) = true := by
    intro a b
    rcases le_total a.2 b.2 with h | h <;> simp [h]
  have hs := List.sorted_mergeSort htrans htotal
    (((base.filter latLngTruthy).map (fun p => (p, dist p))).filter
      (fun pd => decide (pd.2 ≤ radius)))
  exact hs.imp (fun h => of_decide_eq_true h)

/-- C6: the radius search keeps exactly the coordinate-bearing records of
the state-filtered base whose haversine distance from the searched point is
at most the selected radius, each paired with that distance, and the result
is sorted ascending by distance; in particular no kept record has distance
above the radius. -/
theorem c6_radius_search (all : List Prescriber) (sel : String)
    (clat clng radius : ℝ) :
    (∀ p d, (p, d) ∈ doSearchNearby all sel clat clng radius ↔
      (p ∈ getFilteredPrescribers all sel ∧ latLngTruthy p = true ∧
        d = haversine clat clng ((coordLat p : ℚ) : ℝ) ((coordLng p : ℚ) : ℝ) ∧
        d ≤ radius)) ∧
    List.Pairwise (fun a b : Prescriber × ℝ => a.2 ≤ b.2)
      (doSearchNearby all sel clat clng radius) := by
  unfold doSearchNearby
  exact ⟨fun p d => radiusSearch_mem _ _ _ p d, radiusSearch_sorted _ _ _⟩

/-! ## Claim C7: search errors leave the filter state untouched -/

/-- C7: an invalid zip format or an unresolved zip makes doSearch raise a
blocking alert and return the frontend filter state exactly as it was: the
stored search coordinates, the drawn radius overlay, and the displayed
record set are all unchanged. -/
theorem c7_search_error_no_mutation (st : FrontState) (zipRaw : String)
    (radiusMiles : ℚ) (geoResult : Option (ℚ × ℚ))
    (nearby : ℚ × ℚ → List Prescriber)
    (h : isFiveDigitZip (jsTrim zipRaw) = false ∨ geoResult = none) :
    ∃ msg, doSearch st zipRaw radiusMiles geoResult nearby =
      SearchOutcome.alerted msg st := by
  unfold doSearch
  rcases h with h | h
  · refine ⟨"Please enter a valid 5-digit zip code.", ?_⟩
    simp [h]
  · subst h
    cases hz : isFiveDigitZip (jsTrim zipRaw)
    · refine ⟨"Please enter a valid 5-digit zip code.", ?_⟩
      simp [hz]
    · refine ⟨"Could not find location for zip code: " ++ jsTrim zipRaw, ?_⟩
      simp [hz]

/-- Witness for C7 at a concrete malformed zip. -/
theorem c7_search_error_no_mutation_witness :
    ∃ msg, doSearch frontStateEx "1234" 25 none (fun _ => []) =
      SearchOutcome.alerted msg frontStateEx :=
  c7_search_error_no_mutation frontStateEx "1234" 25 none (fun _ => [])
    (Or.inl (by decide))

/-! ## Claim C8: pagination terminates -/

/-- Under the eventual-stop precondition, enough fuel makes the pagination
loop return from any starting offset and accumulator. -/
theorem fetchLoop_stops (pages : Nat → PageResp) :
    ∀ {offset n : Nat}, LoopStops pages offset n →
      ∀ acc : List Contact, acc.length = n →
        ∃ fuel, (fetchLoop pages fuel offset acc).isSome = true := by
  intro offset n h
  induction h with
  | stop hcond =>
    rename_i offset accLen
    intro acc hlen
    refine ⟨1, ?_⟩
    simp [fetchLoop]
    rcases hcond with hc | hc
    · left
      omega
    · right
      exact List.length_eq_zero.mp hc
  | step hrec ih =>
    rename_i offset accLen
    intro acc hlen
    obtain ⟨fuel, hf⟩ := ih (acc ++ (pages offset).contacts)
      (by simp [List.length_append, hlen])
    refine ⟨fuel + 1, ?_⟩
    simp [fetchLoop]
    by_cases hstop : (pages offset).total ≤ acc.length + (pages offset).contacts.length ∨
        (pages offset).contacts = []
    · simp [hstop]
    · simp only [if_neg hstop]
      exact hf

/-- C8: the pagination loop accumulates pages until the reported total is
reached or a page returns empty; under the precondition that following the
pages some response eventually is empty or brings the accumulated count to
the reported total, the loop terminates even when every reported total is
wrong: some finite fuel suffices for fetchAllPrescribers to return. -/
theorem c8_pagination_terminates (pages : Nat → PageResp)
    (h : LoopStops pages 0 0) :
    ∃ fuel, (fetchAllPrescribers pages fuel).isSome = true :=
  fetchLoop_stops pages h [] rfl

/-- Witness for C8 at a contact source whose first page is empty. -/
theorem c8_pagination_terminates_witness :
    ∃ fuel, (fetchAllPrescribers pagesEx fuel).isSome = true :=
  c8_pagination_terminates pagesEx (LoopStops.stop (Or.inr rfl))

/-! ## Claim C9: haversine properties -/

/-- Math.atan2 on a positive x is the arctangent of the ratio. -/
theorem atan2_pos_x (y x : ℝ) (hx : 0 < x) : atan2 y x = Real.arctan (y / x) := by
  unfold atan2
  rw [if_pos hx]

/-- Math.atan2 at (0, 1) is 0. -/
theorem atan2_zero_one : atan2 0 1 = 0 := by
  rw [atan2_pos_x 0 1 (by norm_num), zero_div, Real.arctan_zero]

/-- The distance of a point to itself is 0. -/
theorem haversine_self (lat lon : ℝ) : haversine lat lon lat lon = 0 := by
  simp only [haversine, toRad]
  rw [sub_self, sub_self]
  have e1 : (0:ℝ) * Real.pi / 180 / 2 = 0 := by ring
  rw [e1, Real.sin_zero]
  have e2 : (0:ℝ) ^ 2 + Real.cos (lat * Real.pi / 180) *
      Real.cos (lat * Real.pi / 180) * 0 ^ 2 = 0 := by ring
  rw [e2, Real.sqrt_zero, sub_zero, Real.sqrt_one, atan2_zero_one, mul_zero]

/-- toRad is odd in the difference. -/
theorem toRad_sub_neg (x y : ℝ) : toRad (x - y) = -toRad (y - x) := by
  unfold toRad
  ring

/-- The distance is symmetric in its two points. -/
theorem haversine_comm (a b c d : ℝ) : haversine a b c d = haversine c d a b := by
  have key : ∀ x y : ℝ,
      Real.sin (toRad (x - y) / 2) ^ 2 = Real.sin (toRad (y - x) / 2) ^ 2 := by
    intro x y
    rw [toRad_sub_neg x y, neg_div, Real.sin_neg, neg_sq]
  simp only [haversine]
  rw [key c a, key d b, mul_comm (Real.cos (toRad a)) (Real.cos (toRad c))]

/-- One degree of longitude on the equator: the implemented haversine gives
exactly 3959·π/180 miles. -/
theorem haversine_equator_one_degree :
    haversine 0 0 0 1 = 3959 * Real.pi / 180 := by
  have hpi := Real.pi_pos
  have ht0 : (0:ℝ) < Real.pi / 360 := by positivity
  have htlt : Real.pi / 360 < Real.pi / 2 := by nlinarith
  have htlow : -(Real.pi / 2) < Real.pi / 360 := by nlinarith
  have hsin_nonneg : 0 ≤ Real.sin (Real.pi / 360) :=
    Real.sin_nonneg_of_nonneg_of_le_pi (le_of_lt ht0) (by nlinarith)
  have hcos_pos : 0 < Real.cos (Real.pi / 360) :=
    Real.cos_pos_of_mem_Ioo ⟨htlow, htlt⟩
  simp only [haversine, toRad]
  rw [sub_self]
  have e1 : (0:ℝ) * Real.pi / 180 / 2 = 0 := by ring
  have e2 : ((1:ℝ) - 0) * Real.pi / 180 / 2 = Real.pi / 360 := by ring
  have e0 : (0:ℝ) * Real.pi / 180 = 0 := by ring
  rw [e1, e2, Real.sin_zero, e0, Real.cos_zero]
  have e3 : (0:ℝ) ^ 2 + 1 * 1 * Real.sin (Real.pi / 360) ^ 2 =
      Real.sin (Real.pi / 360) ^ 2 := by ring
  rw [e3, Real.sqrt_sq hsin_nonneg, ← Real.cos_sq', Real.sqrt_sq hcos_pos.le,
    atan2_pos_x _ _ hcos_pos, ← Real.tan_eq_sin_div_cos, Real.arctan_tan htlow htlt]
  ring

/-- C9 counterexample: the implemented distance for one degree of longitude
on the equator is 3959·π/180 ≈ 69.098 miles, which is more than 0.05 away
from the stated 69.17, so it is not 69.17 within rounding tolerance (it does
not even round to 69.2 at one decimal, the display precision the app uses).
The claims about self-distance and symmetry do hold. -/
theorem c9_counterexample : 1 / 20 < |haversine 0 0 0 1 - 69.17| := by
  rw [haversine_equator_one_degree]
  have hlb := Real.pi_gt_d6
  have hub := Real.pi_lt_d6
  have hneg : 3959 * Real.pi / 180 - 69.17 < 0 := by nlinarith
  rw [abs_of_neg hneg]
  nlinarith

/-- C9 (amended): the distance of a point to itself is 0, the distance is
symmetric, and one degree of longitude on the equator is exactly 3959·π/180
miles, within 0.001 of 69.098 (not 69.17: that figure corresponds to a
larger Earth radius than the implemented 3959). -/
theorem c9_haversine_props :
    (∀ lat lon : ℝ, haversine lat lon lat lon = 0) ∧
    (∀ a b c d : ℝ, haversine a b c d = haversine c d a b) ∧
    haversine 0 0 0 1 = 3959 * Real.pi / 180 ∧
    |haversine 0 0 0 1 - 69.098| < 1 / 1000 := by
  refine ⟨haversine_self, haversine_comm, haversine_equator_one_degree, ?_⟩
  rw [haversine_equator_one_degree]
  have hlb := Real.pi_gt_d6
  have hub := Real.pi_lt_d6
  rw [abs_lt]
  constructor <;> nlinarith

/-! ## Claim C10: output document counters -/

/-- Two pointwise exclusive predicates count at most the length together. -/
theorem countP_exclusive_le (pr q : Prescriber → Bool)
    (hpq : ∀ a, ¬(pr a = true ∧ q a = true)) :
    ∀ l : List Prescriber, l.countP pr + l.countP q ≤ l.length := by
  intro l
  induction l with
  | nil => simp
  | cons a t ih =>
    rw [List.countP_cons, List.countP_cons, List.length_cons]
    cases hp : pr a with
    | true =>
      cases hq : q a with
      | true => exact absurd ⟨hp, hq⟩ (hpq a)
      | false =>
        simp [hp, hq]
        omega
    | false =>
      cases hq : q a <;>
        · simp [hp, hq]
          omega

/-- The loop counters always equal the counts of the geocoded and
no-address predicates over the records accumulated so far. -/
theorem runLoop_counts (en : Bool) :
    ∀ (envs : List ContactEnv) (acc : List Prescriber) (g0 s0 : Nat)
      (ps : List Prescriber) (g s : Nat),
      runLoop en envs acc g0 s0 = .ok (ps, g, s) →
      g0 = acc.countP isGeocoded → s0 = acc.countP isNoAddress →
      g = ps.countP isGeocoded ∧ s = ps.countP isNoAddress := by
  intro envs
  induction envs with
  | nil =>
    intro acc g0 s0 ps g s h hg hs
    simp only [runLoop, Except.ok.injEq, Prod.mk.injEq] at h
    obtain ⟨h1, h2, h3⟩ := h
    subst h1
    subst h2
    subst h3
    exact ⟨hg, hs⟩
  | cons e rest ih =>
    intro acc g0 s0 ps g s h hg hs
    simp only [runLoop] at h
    cases hpc : processContact en e with
    | error er =>
      rw [hpc] at h
      exact absurd h (by simp)
    | ok p =>
      rw [hpc] at h
      cases hlt : latLngTruthy p with
      | true =>
        simp only [hlt, if_true] at h
        refine ih _ _ _ _ _ _ h ?_ ?_
        · rw [List.countP_append, hg]
          simp [List.countP_cons, isGeocoded, hlt]
        · rw [List.countP_append, hs]
          simp [List.countP_cons, isNoAddress, hlt]
      | false =>
        simp only [hlt, Bool.false_eq_true, if_false, Bool.not_false, if_true] at h
        cases hft : fullTruthy p with
        | true =>
          simp only [hft, Bool.not_true, Bool.false_eq_true, if_false] at h
          refine ih _ _ _ _ _ _ h ?_ ?_
          · rw [List.countP_append, hg]
            simp [List.countP_cons, isGeocoded, hlt]
          · rw [List.countP_append, hs]
            simp [List.countP_cons, isNoAddress, hlt, hft]
        | false =>
          simp only [hft, Bool.not_false, if_true] at h
          refine ih _ _ _ _ _ _ h ?_ ?_
          · rw [List.countP_append, hg]
            simp [List.countP_cons, isGeocoded, hlt]
          · rw [List.countP_append, hs]
            simp [List.countP_cons, isNoAddress, hlt, hft]

/-- C10: after every successful run, total equals the length of the sorted
prescriber array, the two counters count exactly the geocoded and the
coordinate-less address-less records, these classes are disjoint so the
counters sum to at most the total, and a record with a non-empty
address.full whose geocoding failed is counted in neither. -/
theorem c10_output_counters (en : Bool) (envs : List ContactEnv)
    (ps : List Prescriber) (g s : Nat)
    (h : runPipeline en envs = .ok (ps, g, s)) :
    (makeOutput ps g s).total = (makeOutput ps g s).prescribers.length ∧
    g = ps.countP isGeocoded ∧
    s = ps.countP isNoAddress ∧
    g + s ≤ (makeOutput ps g s).total ∧
    (∀ p, ¬(isGeocoded p = true ∧ isNoAddress p = true)) ∧
    (∀ p, fullTruthy p = true → latLngTruthy p = false →
      isGeocoded p = false ∧ isNoAddress p = false) := by
  have hdisj : ∀ p : Prescriber, ¬(isGeocoded p = true ∧ isNoAddress p = true) := by
    rintro p ⟨h1, h2⟩
    rw [isGeocoded] at h1
    rw [isNoAddress, Bool.and_eq_true] at h2
    rw [h1] at h2
    simpa using h2.1
  unfold runPipeline at h
  obtain ⟨hg, hs⟩ := runLoop_counts en envs [] 0 0 ps g s h rfl rfl
  refine ⟨?_, hg, hs, ?_, hdisj, ?_⟩
  · simp [makeOutput]
  · rw [hg, hs]
    simpa [makeOutput] using countP_exclusive_le _ _ hdisj ps
  · intro p hf hl
    constructor
    · rw [isGeocoded, hl]
    · rw [isNoAddress, hf]
      simp

/-- Witness for C10 at a concrete one-contact run. -/
theorem c10_output_counters_witness :
    (makeOutput [prescriberDegraded] 0 0).total =
      (makeOutput [prescriberDegraded] 0 0).prescribers.length :=
  (c10_output_counters false [envOk] [prescriberDegraded] 0 0 (by decide)).1

end PrescriberMap
